import Mathlib

/-!
Shallow embedding of the kdbg pod-debugger (src/main.rs) for verification of
its specification.  The program shells out to `kubectl`; we model each external
invocation as a `Call` value and the environment as a function `Call → ProcOutput`
giving, for each invocation, whether the process could be started, whether it
exited successfully, and the JSON parse of its standard output.  Every modelled
operation returns, alongside its result, the list of external calls it made,
so "performs exactly one query" and "no follow-up action" are provable facts.
-/

namespace Kdbg

/-- Minimal model of `serde_json::Value` as used by src/main.rs.  The program
only ever inspects strings, arrays, objects and unsigned integers, so numbers
are modelled as `Int` (floating-point numbers never reach `as_u64` successfully
in the paths the program uses them). -/
inductive Json where
  | null : Json
  | bool (b : Bool) : Json
  | num (n : Int) : Json
  | str (s : String) : Json
  | arr (xs : List Json) : Json
  | obj (fields : List (String × Json)) : Json

/-- `value[key]` on `serde_json::Value`: field lookup that yields `Null` when
the value is not an object or the key is absent. -/
def Json.getField : Json → String → Json
  | .obj fields, key =>
      match fields.find? (fun kv => kv.1 == key) with
      | some kv => kv.2
      | none => .null
  | _, _ => .null

/-- `Value::as_str`. -/
def Json.asStr : Json → Option String
  | .str s => some s
  | _ => none

/-- `Value::as_array`. -/
def Json.asArr : Json → Option (List Json)
  | .arr xs => some xs
  | _ => none

/-- `Value::as_u64`: defined exactly on non-negative integers. -/
def Json.asU64 : Json → Option Nat
  | .num n => if 0 ≤ n then some n.toNat else none
  | _ => none

/-- Rust `str::contains`: case-sensitive unanchored substring test.
Byte-level search on valid UTF-8 coincides with character-level search
(UTF-8 is self-synchronizing), so we search over `String.data`. -/
def strContains (s pat : String) : Bool :=
  (List.range (s.data.length + 1)).any fun i => pat.data.isPrefixOf (s.data.drop i)

/-- One external `kubectl` invocation, as built by src/main.rs. -/
inductive Call where
  | getPods (ns : Option String) : Call
  | logs (pod ns : String) (follow : Bool) (tail : Nat) : Call
  | execShell (pod ns shell : String) (stderrVisible : Bool) : Call
deriving DecidableEq

/-- Outcome of one external invocation: `started` is whether the process could
be spawned (`Command::output()?` / `status()?` fails otherwise), `success` is
its exit status, and `parsed` is the JSON parse of its stdout (`none` when the
stdout is not valid JSON, e.g. when it is empty). -/
structure ProcOutput where
  started : Bool
  success : Bool
  parsed : Option Json

/-- The error taxonomy of the spec, as the distinguishable failure modes of the
`anyhow::Result` values in src/main.rs: `transport` for a spawn failure
(`Command::... ?`), `decode` for a `serde_json::from_slice` failure,
`notFound` / `ambiguous` for the two `bail!` sites of `find_pod`, and
`actionFailed` for the `bail!` sites of the follow-up commands. -/
inductive AppError where
  | transport : AppError
  | decode : AppError
  | notFound (pattern : String) : AppError
  | ambiguous (candidates : List (String × String)) : AppError
  | actionFailed (msg : String) : AppError
deriving DecidableEq

/-- The name used for substring filtering in `find_pod`
(`pod["metadata"]["name"].as_str().unwrap_or("")`, line 255). -/
def podFilterName (pod : Json) : String :=
  ((pod.getField "metadata").getField "name").asStr.getD ""

/-- The displayed/returned pod name
(`pod["metadata"]["name"].as_str().unwrap_or("unknown")`, lines 196, 267, 275). -/
def podName (pod : Json) : String :=
  ((pod.getField "metadata").getField "name").asStr.getD "unknown"

/-- The displayed/returned namespace
(`pod["metadata"]["namespace"].as_str().unwrap_or("default")`, lines 197, 268, 276). -/
def podNs (pod : Json) : String :=
  ((pod.getField "metadata").getField "namespace").asStr.getD "default"

/-- The displayed phase (`pod["status"]["phase"].as_str().unwrap_or("Unknown")`,
line 198). -/
def podPhase (pod : Json) : String :=
  ((pod.getField "status").getField "phase").asStr.getD "Unknown"

/-- Restart count: first container status's `restartCount`, else 0
(lines 209-213). -/
def podRestarts (pod : Json) : Nat :=
  ((((pod.getField "status").getField "containerStatuses").asArr.bind
      (fun cs => cs.head?)).bind
    (fun c => (c.getField "restartCount").asU64)).getD 0

/-- The (name, namespace) identity `find_pod` returns for the unique match
(lines 275-278). -/
def resolvedPair (pod : Json) : String × String :=
  (podName pod, podNs pod)

/-- `find_pod(pod_pattern, namespace)` (src/main.rs lines 232-279).
Returns (result, printed candidate lines, external call log).  The printed
candidate lines are those emitted by the `println!` loop of the ambiguous
branch, in order, before the `bail!`.  Note the source never consults the
exit status of the `kubectl get pods` call: only `started` and `parsed`
matter. -/
def findPod (env : Call → ProcOutput) (pat : String) (ns : Option String) :
    Except AppError (String × String) × List (String × String) × List Call :=
  if (env (Call.getPods ns)).started = false then
    (.error .transport, [], [Call.getPods ns])
  else
    match (env (Call.getPods ns)).parsed with
    | none => (.error .decode, [], [Call.getPods ns])
    | some json =>
      match ((json.getField "items").asArr.getD []).filter
          (fun p => strContains (podFilterName p) pat) with
      | [] => (.error (.notFound pat), [], [Call.getPods ns])
      | [m] => (.ok (resolvedPair m), [], [Call.getPods ns])
      | ms => (.error (.ambiguous (ms.map resolvedPair)), ms.map resolvedPair,
               [Call.getPods ns])

/-- The single follow-up `kubectl logs` invocation of `show_logs`
(lines 288-301): `status()?` then a `bail!` on an unsuccessful exit. -/
def logsAction (env : Call → ProcOutput) (target : String × String)
    (follow : Bool) (tail : Nat) : Except AppError Unit × List Call :=
  if (env (Call.logs target.1 target.2 follow tail)).started = false then
    (.error .transport, [Call.logs target.1 target.2 follow tail])
  else if (env (Call.logs target.1 target.2 follow tail)).success = false then
    (.error (.actionFailed "Failed to get logs"),
     [Call.logs target.1 target.2 follow tail])
  else (.ok (), [Call.logs target.1 target.2 follow tail])

/-- `show_logs` (lines 281-304): resolve, then one `kubectl logs` call.
Returns (result, external call log). -/
def showLogs (env : Call → ProcOutput) (pat : String) (ns : Option String)
    (follow : Bool) (tail : Nat) : Except AppError Unit × List Call :=
  match findPod env pat ns with
  | (.error e, _, log) => (.error e, log)
  | (.ok target, _, log) =>
    let r := logsAction env target follow tail
    (r.1, log ++ r.2)

/-- One row of the `list` table: the decoded fields printed for one pod
(lines 195-224).  `parse` stands for `chrono::DateTime::parse_from_rfc3339`
composed with `.timestamp()` (an external library, not part of src/): it
yields the creation time in seconds when the string parses, `none` otherwise. -/
structure Row where
  name : String
  ns : String
  phase : String
  restarts : Nat
  age : String
deriving DecidableEq

/-- `calculate_age` (lines 522-545), with the chrono parse outcome supplied as
`parsed` and the current time as `now`.  The source computes
`created = parse(ts).map(timestamp).unwrap_or(0)` and then buckets
`diff = now - created`.  All divisions happen on `diff ≥ 60`, where Rust's
truncating division agrees with Lean's `Int` division. -/
def formatAge (diff : Int) : String :=
  if diff < 60 then toString diff ++ "s"
  else if diff < 3600 then toString (diff / 60) ++ "m"
  else if diff < 86400 then toString (diff / 3600) ++ "h"
  else toString (diff / 86400) ++ "d"

def calculate_age (parsed : Option Int) (now : Int) : String :=
  formatAge (now - parsed.getD 0)

/-- The age column (lines 215-218): `"unknown"` only when `creationTimestamp`
is absent (or not a string); a present-but-unparsable timestamp still goes
through `calculate_age` (whose parse failure defaults `created` to 0). -/
def rowAge (parse : String → Option Int) (now : Int) (pod : Json) : String :=
  match ((pod.getField "metadata").getField "creationTimestamp").asStr with
  | none => "unknown"
  | some ts => calculate_age (parse ts) now

def listRow (parse : String → Option Int) (now : Int) (pod : Json) : Row :=
  { name := podName pod
    ns := podNs pod
    phase := podPhase pod
    restarts := podRestarts pod
    age := rowAge parse now pod }

/-- `list_pods` (lines 156-230).  `Except.ok none` models the branch at lines
174-177: when `kubectl` exits unsuccessfully the source prints
`"[ERROR] kubectl command failed"` and then `return Ok(())` — the process still
exits with code 0.  `verbose` only selects which columns are printed and does
not affect the decoded data. -/
def listPods (env : Call → ProcOutput) (ns : Option String) (verbose : Bool)
    (parse : String → Option Int) (now : Int) :
    Except AppError (Option (List Row)) :=
  if (env (Call.getPods ns)).started = false then .error .transport
  else if (env (Call.getPods ns)).success = false then .ok none
  else
    match (env (Call.getPods ns)).parsed with
    | none => .error .decode
    | some json =>
      .ok (some (((json.getField "items").asArr.getD []).map (listRow parse now)))

/-- The shell-attempt loop of `shell_pod` (lines 402-434), after resolution:
bash with stderr suppressed, then sh with stderr suppressed, then — because sh
is the last alternative — sh again with stderr inherited; the first success
returns, and only after the loud attempt fails does the function `bail!`. -/
def shellAttempts (env : Call → ProcOutput) (name ns : String) :
    Except AppError Unit × List Call :=
  let c1 := Call.execShell name ns "/bin/bash" false
  if (env c1).started = false then (.error .transport, [c1])
  else if (env c1).success then (.ok (), [c1])
  else
    let c2 := Call.execShell name ns "/bin/sh" false
    if (env c2).started = false then (.error .transport, [c1, c2])
    else if (env c2).success then (.ok (), [c1, c2])
    else
      let c3 := Call.execShell name ns "/bin/sh" true
      if (env c3).started = false then (.error .transport, [c1, c2, c3])
      else if (env c3).success then (.ok (), [c1, c2, c3])
      else (.error (.actionFailed "Failed to open shell (tried bash and sh)"),
            [c1, c2, c3])

/-- `shell_pod` (lines 394-435): resolve, then the attempt loop. -/
def shellPod (env : Call → ProcOutput) (pat : String) (ns : Option String) :
    Except AppError Unit × List Call :=
  match findPod env pat ns with
  | (.error e, _, log) => (.error e, log)
  | (.ok target, _, log) =>
    let r := shellAttempts env target.1 target.2
    (r.1, log ++ r.2)

/-- Process outcome of `main` (lines 135-154): an `anyhow` error from the
dispatched command is printed once and the process exits non-zero; `Ok` exits 0. -/
def exitOf {α : Type} : Except AppError α → Nat
  | .ok _ => 0
  | .error _ => 1

/-- Is an external call the pod-listing query? -/
def isQuery : Call → Bool
  | .getPods _ => true
  | _ => false

/-- Bucket index of `formatAge`: 0 = seconds, 1 = minutes, 2 = hours, 3 = days. -/
def bucketIdx (a : Int) : Nat :=
  if a < 60 then 0 else if a < 3600 then 1 else if a < 86400 then 2 else 3

/-- Displayed magnitude of `formatAge` in its bucket. -/
def bucketVal (a : Int) : Int :=
  if a < 60 then a else if a < 3600 then a / 60
  else if a < 86400 then a / 3600 else a / 86400

/-- Unit suffix of each bucket. -/
def bucketSuffix : Nat → String
  | 0 => "s"
  | 1 => "m"
  | 2 => "h"
  | _ => "d"

/-! ## Test fixtures -/

/-- A pod JSON value with the given name and namespace set. -/
def mkPod (name ns : String) : Json :=
  .obj [("metadata", .obj [("name", .str name), ("namespace", .str ns)])]

/-- An environment whose pod-listing query succeeds and returns the given
items; all other calls succeed with unparsable output. -/
def envOfPods (pods : List Json) : Call → ProcOutput := fun c =>
  match c with
  | .getPods _ => ⟨true, true, some (.obj [("items", .arr pods)])⟩
  | _ => ⟨true, true, none⟩

/-! ## Helper lemmas -/

/-- Characterization of `findPod` once the query has started and its stdout
parsed: the outcome is decided by the substring-filtered match list. -/
theorem findPod_eq (env : Call → ProcOutput) (pat : String) (ns : Option String)
    (json : Json)
    (hstart : (env (Call.getPods ns)).started = true)
    (hparse : (env (Call.getPods ns)).parsed = some json) :
    findPod env pat ns =
      match ((json.getField "items").asArr.getD []).filter
          (fun p => strContains (podFilterName p) pat) with
      | [] => (.error (.notFound pat), [], [Call.getPods ns])
      | [m] => (.ok (resolvedPair m), [], [Call.getPods ns])
      | ms => (.error (.ambiguous (ms.map resolvedPair)), ms.map resolvedPair,
               [Call.getPods ns]) := by
  simp only [findPod, hstart, hparse]
  rfl

/-- `findPod` always performs exactly the one pod-listing query. -/
theorem findPod_log (env : Call → ProcOutput) (pat : String) (ns : Option String) :
    (findPod env pat ns).2.2 = [Call.getPods ns] := by
  unfold findPod
  split
  · rfl
  · split
    · rfl
    · split <;> rfl

/-- The follow-up of `show_logs` is always the single `kubectl logs` call. -/
theorem logsAction_snd (env : Call → ProcOutput) (target : String × String)
    (follow : Bool) (tail : Nat) :
    (logsAction env target follow tail).2
      = [Call.logs target.1 target.2 follow tail] := by
  unfold logsAction
  split
  · rfl
  · split <;> rfl

/-! ## Claims -/

/-- C1: for every candidate set and pattern such that exactly one record's name
contains the pattern as a case-sensitive unanchored substring, `find_pod`
succeeds with that record's (name, namespace) pair and its external call log is
exactly one pod-listing query. -/
theorem C1_unique_match_resolves (env : Call → ProcOutput) (pat : String)
    (ns : Option String) (json m : Json)
    (hstart : (env (Call.getPods ns)).started = true)
    (hparse : (env (Call.getPods ns)).parsed = some json)
    (hfilter : ((json.getField "items").asArr.getD []).filter
        (fun p => strContains (podFilterName p) pat) = [m]) :
    findPod env pat ns = (.ok (resolvedPair m), [], [Call.getPods ns]) ∧
    (findPod env pat ns).2.2.countP (fun c => isQuery c) = 1 := by
  have h := findPod_eq env pat ns json hstart hparse
  rw [hfilter] at h
  refine ⟨h, ?_⟩
  rw [h]
  simp [isQuery, List.countP_cons, List.countP_nil]

/-- C1 witness. -/
theorem C1_witness :
    findPod (envOfPods [mkPod "web-1" "prod", mkPod "db-1" "prod"]) "web" none
      = (.ok ("web-1", "prod"), [], [Call.getPods none]) ∧
    (findPod (envOfPods [mkPod "web-1" "prod", mkPod "db-1" "prod"])
        "web" none).2.2.countP (fun c => isQuery c) = 1 :=
  C1_unique_match_resolves
    (envOfPods [mkPod "web-1" "prod", mkPod "db-1" "prod"]) "web" none
    (.obj [("items", .arr [mkPod "web-1" "prod", mkPod "db-1" "prod"])])
    (mkPod "web-1" "prod") rfl rfl rfl

/-- C2: for every candidate set and pattern whose substring filter yields two or
more matches, `find_pod` fails with the ambiguous error; the reported candidate
list is the image of the match list in query order (hence same cardinality and
membership), the candidates are printed before the failure, and the result
carries no chosen candidate. -/
theorem C2_ambiguous_reports_matches (env : Call → ProcOutput) (pat : String)
    (ns : Option String) (json : Json) (ms : List Json)
    (hstart : (env (Call.getPods ns)).started = true)
    (hparse : (env (Call.getPods ns)).parsed = some json)
    (hfilter : ((json.getField "items").asArr.getD []).filter
        (fun p => strContains (podFilterName p) pat) = ms)
    (hlen : 2 ≤ ms.length) :
    findPod env pat ns = (.error (.ambiguous (ms.map resolvedPair)),
      ms.map resolvedPair, [Call.getPods ns]) ∧
    (ms.map resolvedPair).length = ms.length := by
  have h := findPod_eq env pat ns json hstart hparse
  rw [hfilter] at h
  rcases ms with _ | ⟨a, _ | ⟨b, rest⟩⟩
  · simp at hlen
  · simp at hlen
  · exact ⟨h, by simp⟩

/-- C2 witness. -/
theorem C2_witness :
    findPod (envOfPods [mkPod "web-1" "prod", mkPod "web-2" "prod"]) "web" none
      = (.error (.ambiguous [("web-1", "prod"), ("web-2", "prod")]),
         [("web-1", "prod"), ("web-2", "prod")], [Call.getPods none]) ∧
    ([mkPod "web-1" "prod", mkPod "web-2" "prod"].map resolvedPair).length
      = [mkPod "web-1" "prod", mkPod "web-2" "prod"].length :=
  C2_ambiguous_reports_matches
    (envOfPods [mkPod "web-1" "prod", mkPod "web-2" "prod"]) "web" none
    (.obj [("items", .arr [mkPod "web-1" "prod", mkPod "web-2" "prod"])])
    [mkPod "web-1" "prod", mkPod "web-2" "prod"] rfl rfl rfl (by decide)

/-- C3: for every candidate set and pattern with no substring match (including
the empty candidate set), `find_pod` fails with the not-found error, and the
calling command (`show_logs`) performs no follow-up external call: its call log
is just the one listing query. -/
theorem C3_not_found_no_followup (env : Call → ProcOutput) (pat : String)
    (ns : Option String) (json : Json) (follow : Bool) (tail : Nat)
    (hstart : (env (Call.getPods ns)).started = true)
    (hparse : (env (Call.getPods ns)).parsed = some json)
    (hfilter : ((json.getField "items").asArr.getD []).filter
        (fun p => strContains (podFilterName p) pat) = []) :
    findPod env pat ns = (.error (.notFound pat), [], [Call.getPods ns]) ∧
    showLogs env pat ns follow tail = (.error (.notFound pat), [Call.getPods ns]) := by
  have h := findPod_eq env pat ns json hstart hparse
  rw [hfilter] at h
  refine ⟨h, ?_⟩
  unfold showLogs
  rw [h]

/-- C3 witness: empty candidate set. -/
theorem C3_witness :
    findPod (envOfPods []) "web" none
      = (.error (.notFound "web"), [], [Call.getPods none]) ∧
    showLogs (envOfPods []) "web" none false 100
      = (.error (.notFound "web"), [Call.getPods none]) :=
  C3_not_found_no_followup (envOfPods []) "web" none
    (.obj [("items", .arr [])]) false 100 rfl rfl rfl

/-- C10: the empty pattern is a substring of every name, so resolution with an
empty pattern succeeds exactly when the scope contains exactly one pod: a
one-pod scope resolves to that pod, a zero-pod scope fails with the not-found
error, and a scope of two or more fails with the ambiguous error reporting
every pod in scope. -/
theorem C10_empty_pattern_matches_all (env : Call → ProcOutput)
    (ns : Option String) (json : Json)
    (hstart : (env (Call.getPods ns)).started = true)
    (hparse : (env (Call.getPods ns)).parsed = some json) :
    (∀ s : String, strContains s "" = true) ∧
    (∀ m : Json, (json.getField "items").asArr.getD [] = [m] →
       findPod env "" ns = (.ok (resolvedPair m), [], [Call.getPods ns])) ∧
    ((json.getField "items").asArr.getD [] = [] →
       findPod env "" ns = (.error (.notFound ""), [], [Call.getPods ns])) ∧
    (∀ pods : List Json, (json.getField "items").asArr.getD [] = pods →
       2 ≤ pods.length →
       findPod env "" ns = (.error (.ambiguous (pods.map resolvedPair)),
         pods.map resolvedPair, [Call.getPods ns])) := by
  have hempty : ∀ s : String, strContains s "" = true := by
    intro s
    unfold strContains
    rw [List.any_eq_true]
    refine ⟨0, List.mem_range.mpr (Nat.succ_pos _), ?_⟩
    cases s.data.drop 0 <;> rfl
  have hfil : ∀ pods : List Json,
      pods.filter (fun p => strContains (podFilterName p) "") = pods := by
    intro pods
    apply List.filter_eq_self.mpr
    intro a _
    exact hempty _
  refine ⟨hempty, ?_, ?_, ?_⟩
  · intro m hm
    have h := findPod_eq env "" ns json hstart hparse
    rw [hm, hfil] at h
    exact h
  · intro hm
    have h := findPod_eq env "" ns json hstart hparse
    rw [hm, hfil] at h
    exact h
  · intro pods hm hlen
    have h := findPod_eq env "" ns json hstart hparse
    rw [hm, hfil] at h
    rcases pods with _ | ⟨a, _ | ⟨b, rest⟩⟩
    · simp at hlen
    · simp at hlen
    · exact h

/-- C10 witness: a one-pod scope resolves, the empty scope is not found, a
two-pod scope is ambiguous with both pods listed. -/
theorem C10_witness :
    strContains "any-name" "" = true ∧
    findPod (envOfPods [mkPod "a" "x"]) "" none
      = (.ok ("a", "x"), [], [Call.getPods none]) ∧
    findPod (envOfPods []) "" none
      = (.error (.notFound ""), [], [Call.getPods none]) ∧
    findPod (envOfPods [mkPod "a" "x", mkPod "b" "y"]) "" none
      = (.error (.ambiguous [("a", "x"), ("b", "y")]),
         [("a", "x"), ("b", "y")], [Call.getPods none]) :=
  ⟨(C10_empty_pattern_matches_all (envOfPods [mkPod "a" "x", mkPod "b" "y"]) none
      (.obj [("items", .arr [mkPod "a" "x", mkPod "b" "y"])]) rfl rfl).1 "any-name",
   (C10_empty_pattern_matches_all (envOfPods [mkPod "a" "x"]) none
      (.obj [("items", .arr [mkPod "a" "x"])]) rfl rfl).2.1 (mkPod "a" "x") rfl,
   (C10_empty_pattern_matches_all (envOfPods []) none
      (.obj [("items", .arr [])]) rfl rfl).2.2.1 rfl,
   (C10_empty_pattern_matches_all (envOfPods [mkPod "a" "x", mkPod "b" "y"]) none
      (.obj [("items", .arr [mkPod "a" "x", mkPod "b" "y"])]) rfl rfl).2.2.2
     [mkPod "a" "x", mkPod "b" "y"] rfl (by decide)⟩

/-- Environment for the C5 counterexample: the listing call starts, exits with
failure, yet leaves well-formed JSON on stdout. -/
def envC5 : Call → ProcOutput := fun c =>
  match c with
  | .getPods _ => ⟨true, false, some (.obj [("items", .arr [mkPod "web-1" "prod"])])⟩
  | _ => ⟨true, true, none⟩

/-- C5 counterexample: the external listing call exits non-zero
(`success = false`), yet `find_pod` does not fail with the transport error — it
decodes the response and even resolves successfully.  The source never
inspects `output.status` in `find_pod` (unlike `list_pods`). -/
theorem C5_counterexample :
    (envC5 (Call.getPods none)).success = false ∧
    findPod envC5 "web" none = (.ok ("web-1", "prod"), [], [Call.getPods none]) :=
  ⟨rfl, rfl⟩

/-- C5 amended: the query fails with the transport error exactly when the
external call cannot be started; once started, the outcome ignores the exit
status entirely — it depends only on the JSON parse of stdout, and an
unparsable stdout (the usual shape of a failed `kubectl` run) surfaces as the
decode error. -/
theorem C5_transport_only_on_spawn_failure (env env' : Call → ProcOutput)
    (pat : String) (ns : Option String) :
    ((env (Call.getPods ns)).started = false →
       findPod env pat ns = (.error .transport, [], [Call.getPods ns])) ∧
    ((env (Call.getPods ns)).started = true →
     (env (Call.getPods ns)).parsed = none →
       findPod env pat ns = (.error .decode, [], [Call.getPods ns])) ∧
    ((env' (Call.getPods ns)).started = (env (Call.getPods ns)).started →
     (env' (Call.getPods ns)).parsed = (env (Call.getPods ns)).parsed →
       findPod env' pat ns = findPod env pat ns) := by
  refine ⟨?_, ?_, ?_⟩
  · intro h
    unfold findPod
    rw [h]
    rfl
  · intro h1 h2
    unfold findPod
    rw [h1, h2]
    rfl
  · intro h1 h2
    unfold findPod
    rw [h1, h2]

/-- C5 witness: spawn failure gives the transport error; a started call with
unparsable stdout gives the decode error; and flipping only the exit status of
`envC5` does not change the result. -/
theorem C5_witness :
    findPod (fun _ => ⟨false, false, none⟩) "web" none
      = (.error .transport, [], [Call.getPods none]) ∧
    findPod (fun _ => ⟨true, false, none⟩) "web" none
      = (.error .decode, [], [Call.getPods none]) ∧
    findPod envC5 "web" none = findPod (envOfPods [mkPod "web-1" "prod"]) "web" none :=
  ⟨(C5_transport_only_on_spawn_failure (fun _ => ⟨false, false, none⟩)
      (fun _ => ⟨false, false, none⟩) "web" none).1 rfl,
   (C5_transport_only_on_spawn_failure (fun _ => ⟨true, false, none⟩)
      (fun _ => ⟨true, false, none⟩) "web" none).2.1 rfl rfl,
   (C5_transport_only_on_spawn_failure (envOfPods [mkPod "web-1" "prod"]) envC5
      "web" none).2.2 rfl rfl⟩

/-- Environment for the C4 counterexample: every external call starts but exits
with failure and emits no parsable output. -/
def envC4 : Call → ProcOutput := fun _ => ⟨true, false, none⟩

/-- C4 counterexample: when the external listing call of the `list` operation
exits with failure, `list_pods` prints the error line and returns `Ok(())`
(lines 174-177), so the process outcome is 0, not non-zero as claimed. -/
theorem C4_counterexample :
    listPods envC4 none false (fun _ => none) 0 = .ok none ∧
    exitOf (listPods envC4 none false (fun _ => none) 0) = 0 :=
  ⟨rfl, rfl⟩

/-- C4 amended: every taxonomy error reaching a resolver-based command such as
`show_logs` is terminal — it yields exit code 1, and the invocation never
retries the listing query (at most one query call appears in its log); the one
exception is the `list` operation, whose listing call exiting with failure is
reported by a printed error message while the process still exits 0. -/
theorem C4_errors_terminal_except_list (env : Call → ProcOutput) (pat : String)
    (ns nsl : Option String) (follow verbose : Bool) (tail : Nat)
    (parse : String → Option Int) (now : Int) :
    (∀ e : AppError, (showLogs env pat ns follow tail).1 = .error e →
       exitOf (showLogs env pat ns follow tail).1 = 1) ∧
    ((showLogs env pat ns follow tail).2.countP (fun c => isQuery c) ≤ 1) ∧
    ((env (Call.getPods nsl)).started = true →
     (env (Call.getPods nsl)).success = false →
       listPods env nsl verbose parse now = .ok none ∧
       exitOf (listPods env nsl verbose parse now) = 0) := by
  refine ⟨?_, ?_, ?_⟩
  · intro e he
    rw [he]
    rfl
  · rcases hf : findPod env pat ns with ⟨r, printed, log⟩
    have hlog : log = [Call.getPods ns] := by
      have h := findPod_log env pat ns
      rw [hf] at h
      exact h
    subst hlog
    unfold showLogs
    rw [hf]
    rcases r with e | t
    · show List.countP (fun c => isQuery c) [Call.getPods ns] ≤ 1
      simp [isQuery, List.countP_cons, List.countP_nil]
    · show List.countP (fun c => isQuery c)
        ([Call.getPods ns] ++ (logsAction env t follow tail).2) ≤ 1
      rw [logsAction_snd]
      simp [isQuery, List.countP_append, List.countP_cons, List.countP_nil]
  · intro h1 h2
    unfold listPods
    rw [h1, h2]
    exact ⟨rfl, rfl⟩

/-- C4 witness: with `envC4` the logs command fails with the decode error and
exit code 1 after a single query, while the list command exits 0. -/
theorem C4_witness :
    exitOf (showLogs envC4 "web" none false 100).1 = 1 ∧
    (showLogs envC4 "web" none false 100).2.countP (fun c => isQuery c) ≤ 1 ∧
    (listPods envC4 none false (fun _ => none) 0 = .ok none ∧
     exitOf (listPods envC4 none false (fun _ => none) 0) = 0) :=
  ⟨(C4_errors_terminal_except_list envC4 "web" none none false false 100
      (fun _ => none) 0).1 .decode rfl,
   (C4_errors_terminal_except_list envC4 "web" none none false false 100
      (fun _ => none) 0).2.1,
   (C4_errors_terminal_except_list envC4 "web" none none false false 100
      (fun _ => none) 0).2.2 rfl rfl⟩

/-- Pod record for the C6 counterexample: a name but no namespace field. -/
def podC6 : Json := .obj [("metadata", .obj [("name", .str "web-1")])]

/-- Environment for the C6 counterexample. -/
def envC6 : Call → ProcOutput := fun c =>
  match c with
  | .getPods _ => ⟨true, true, some (.obj [("items", .arr [podC6])])⟩
  | _ => ⟨true, true, none⟩

/-- C6 counterexample: a record whose namespace is left unset decodes to
`"default"` (lines 197, 268, 276), not `"unknown"` as claimed — both in the
listing row and in the identity returned by resolution. -/
theorem C6_counterexample :
    ((podC6.getField "metadata").getField "namespace").asStr = none ∧
    (listRow (fun _ => none) 0 podC6).ns = "default" ∧
    findPod envC6 "web" none = (.ok ("web-1", "default"), [], [Call.getPods none]) ∧
    "default" ≠ "unknown" :=
  ⟨rfl, rfl, rfl, by decide⟩

/-- C6 amended: decoding never crashes and maps unset fields to fixed defaults,
but the defaults differ per field: an unset name maps to `"unknown"`, an unset
namespace maps to `"default"`, and an unset phase maps to `"Unknown"` — the
same defaults in the listing row and in the resolved identity
(`resolvedPair`). -/
theorem C6_unset_field_defaults (parse : String → Option Int) (now : Int)
    (pod : Json) :
    (((pod.getField "metadata").getField "name").asStr = none →
       (listRow parse now pod).name = "unknown" ∧
       (resolvedPair pod).1 = "unknown") ∧
    (((pod.getField "metadata").getField "namespace").asStr = none →
       (listRow parse now pod).ns = "default" ∧
       (resolvedPair pod).2 = "default") ∧
    (((pod.getField "status").getField "phase").asStr = none →
       (listRow parse now pod).phase = "Unknown") := by
  refine ⟨?_, ?_, ?_⟩
  · intro h
    constructor <;> simp [listRow, podName, resolvedPair, h]
  · intro h
    constructor <;> simp [listRow, podNs, resolvedPair, h]
  · intro h
    simp [listRow, podPhase, h]

/-- C6 witness: the empty object decodes to all three defaults. -/
theorem C6_witness :
    ((listRow (fun _ => none) 0 (Json.obj [])).name = "unknown" ∧
     (resolvedPair (Json.obj [])).1 = "unknown") ∧
    ((listRow (fun _ => none) 0 (Json.obj [])).ns = "default" ∧
     (resolvedPair (Json.obj [])).2 = "default") ∧
    (listRow (fun _ => none) 0 (Json.obj [])).phase = "Unknown" :=
  ⟨(C6_unset_field_defaults (fun _ => none) 0 (Json.obj [])).1 rfl,
   (C6_unset_field_defaults (fun _ => none) 0 (Json.obj [])).2.1 rfl,
   (C6_unset_field_defaults (fun _ => none) 0 (Json.obj [])).2.2 rfl⟩

/-- Pod record for the C7 counterexample: `creationTimestamp` is present but
not a parsable RFC3339 timestamp. -/
def podC7 : Json :=
  .obj [("metadata", .obj [("name", .str "web-1"),
         ("creationTimestamp", .str "not-a-timestamp")])]

/-- Modelled from the spec: the outcome of the external chrono RFC3339 parser
(not part of src/) on the strings the C7 counterexample feeds it — the spec
grants that timestamps can be unparsable, and on an unparsable string the
parse yields no value. -/
def parseC7 : String → Option Int := fun _ => none

/-- C7 counterexample: a record with a present but unparsable
`creationTimestamp` does not decode to the `"unknown"` age sentinel: the
source's `calculate_age` defaults the parse failure to creation time 0
(line 527) and formats a bucketed age — at `now = 86400` the row shows
`"1d"`. -/
theorem C7_counterexample :
    ((podC7.getField "metadata").getField "creationTimestamp").asStr
      = some "not-a-timestamp" ∧
    (listRow parseC7 86400 podC7).age = "1d" ∧
    "1d" ≠ "unknown" :=
  ⟨rfl, rfl, by decide⟩

/-- C7 amended: a record missing `restartCount` (no container statuses, or a
first status without the field) decodes to restart count 0, and the count is
the first reported container status's value when present; a record with a
missing `creationTimestamp` decodes to the `"unknown"` age sentinel; but a
present, unparsable timestamp is not mapped to the sentinel — the parse
failure defaults the creation time to 0 and the row shows the bucketed age of
`now` itself.  In no case does decoding fail the whole query. -/
theorem C7_restart_and_age_defaults (parse : String → Option Int) (now : Int)
    (pod : Json) :
    (((pod.getField "status").getField "containerStatuses").asArr = none →
       (listRow parse now pod).restarts = 0) ∧
    (∀ c cs, ((pod.getField "status").getField "containerStatuses").asArr
         = some (c :: cs) →
       (c.getField "restartCount").asU64 = none →
       (listRow parse now pod).restarts = 0) ∧
    (∀ c cs k, ((pod.getField "status").getField "containerStatuses").asArr
         = some (c :: cs) →
       (c.getField "restartCount").asU64 = some k →
       (listRow parse now pod).restarts = k) ∧
    (((pod.getField "metadata").getField "creationTimestamp").asStr = none →
       (listRow parse now pod).age = "unknown") ∧
    (∀ ts, ((pod.getField "metadata").getField "creationTimestamp").asStr
         = some ts →
       parse ts = none →
       (listRow parse now pod).age = formatAge now) := by
  refine ⟨?_, ?_, ?_, ?_, ?_⟩
  · intro h
    simp [listRow, podRestarts, h]
  · intro c cs h hc
    simp [listRow, podRestarts, h, hc]
  · intro c cs k h hc
    simp [listRow, podRestarts, h, hc]
  · intro h
    simp [listRow, rowAge, h]
  · intro ts h hp
    simp [listRow, rowAge, h, hp, calculate_age]

/-- C7 witness: concrete records for each default. -/
theorem C7_witness :
    (listRow parseC7 86400 (Json.obj [])).restarts = 0 ∧
    (listRow parseC7 86400
        (Json.obj [("status", Json.obj [("containerStatuses",
          Json.arr [Json.obj []])])])).restarts = 0 ∧
    (listRow parseC7 86400
        (Json.obj [("status", Json.obj [("containerStatuses",
          Json.arr [Json.obj [("restartCount", Json.num 3)]])])])).restarts = 3 ∧
    (listRow parseC7 86400 (Json.obj [])).age = "unknown" ∧
    (listRow parseC7 86400 podC7).age = formatAge 86400 :=
  ⟨(C7_restart_and_age_defaults parseC7 86400 (Json.obj [])).1 rfl,
   (C7_restart_and_age_defaults parseC7 86400
      (Json.obj [("status", Json.obj [("containerStatuses",
        Json.arr [Json.obj []])])])).2.1 (Json.obj []) [] rfl rfl,
   (C7_restart_and_age_defaults parseC7 86400
      (Json.obj [("status", Json.obj [("containerStatuses",
        Json.arr [Json.obj [("restartCount", Json.num 3)]])])])).2.2.1
     (Json.obj [("restartCount", Json.num 3)]) [] 3 rfl rfl,
   (C7_restart_and_age_defaults parseC7 86400 (Json.obj [])).2.2.2.1 rfl,
   (C7_restart_and_age_defaults parseC7 86400 podC7).2.2.2.2
     "not-a-timestamp" rfl rfl⟩

/-- C8: the age formatter buckets a non-negative age by integer division with
no rounding — seconds below 60, minutes below one hour, hours below one day,
else days; it is monotone in the age in the sense that the (bucket, displayed
magnitude) pair never decreases lexicographically; and the bucket boundaries
land exactly as the spec lists them.  `calculate_age` is `formatAge` of
`now - created`. -/
theorem C8_age_bucketing (a b : Int) (h0 : 0 ≤ a) (hab : a ≤ b) :
    (a < 60 → formatAge a = toString a ++ "s") ∧
    (60 ≤ a → a < 3600 → formatAge a = toString (a / 60) ++ "m") ∧
    (3600 ≤ a → a < 86400 → formatAge a = toString (a / 3600) ++ "h") ∧
    (86400 ≤ a → formatAge a = toString (a / 86400) ++ "d") ∧
    (formatAge a = toString (bucketVal a) ++ bucketSuffix (bucketIdx a)) ∧
    (bucketIdx a < bucketIdx b ∨
      (bucketIdx a = bucketIdx b ∧ bucketVal a ≤ bucketVal b)) ∧
    (formatAge 59 = "59s" ∧ formatAge 60 = "1m" ∧ formatAge 3599 = "59m" ∧
     formatAge 3600 = "1h" ∧ formatAge 86399 = "23h" ∧ formatAge 86400 = "1d") ∧
    (∀ created now : Int, calculate_age (some created) now
        = formatAge (now - created)) := by
  refine ⟨?_, ?_, ?_, ?_, ?_, ?_, ?_, ?_⟩
  · intro h
    unfold formatAge
    rw [if_pos h]
  · intro h1 h2
    unfold formatAge
    rw [if_neg (by omega), if_pos h2]
  · intro h1 h2
    unfold formatAge
    rw [if_neg (by omega), if_neg (by omega), if_pos h2]
  · intro h
    unfold formatAge
    rw [if_neg (by omega), if_neg (by omega), if_neg (by omega)]
  · unfold formatAge bucketVal bucketIdx bucketSuffix
    split_ifs <;> rfl
  · unfold bucketIdx bucketVal
    split_ifs <;>
      first
        | (left; decide)
        | (right; exact ⟨rfl, hab⟩)
        | (right; exact ⟨rfl, Int.ediv_le_ediv (by norm_num) hab⟩)
        | omega
  · exact ⟨rfl, rfl, rfl, rfl, rfl, rfl⟩
  · intro created now
    rfl

/-- C8 witness: the boundary pair 59 ≤ 60. -/
theorem C8_witness :
    formatAge (59 : Int) = toString (59 : Int) ++ "s" ∧
    (bucketIdx (59 : Int) < bucketIdx 60 ∨
      (bucketIdx (59 : Int) = bucketIdx 60 ∧ bucketVal (59 : Int) ≤ bucketVal 60)) ∧
    formatAge (59 : Int) = "59s" ∧ formatAge (60 : Int) = "1m" :=
  ⟨(C8_age_bucketing 59 60 (by decide) (by decide)).1 (by decide),
   (C8_age_bucketing 59 60 (by decide) (by decide)).2.2.2.2.2.1,
   (C8_age_bucketing 59 60 (by decide) (by decide)).2.2.2.2.2.2.1.1,
   (C8_age_bucketing 59 60 (by decide) (by decide)).2.2.2.2.2.2.1.2.1⟩

/-- C9: `shell_pod`'s attempt schedule over the alternatives bash-then-sh is
bash with stderr suppressed, sh with stderr suppressed, then — as the final
attempt — sh with stderr inherited; the operation returns success at the first
succeeding attempt (logging only the attempts made, in order) and fails only
after the final, diagnostics-visible attempt has failed. -/
theorem C9_shell_fallback (env : Call → ProcOutput) (pat : String)
    (ns : Option String) (name nsp : String) (printed : List (String × String))
    (log : List Call)
    (hresolve : findPod env pat ns = (.ok (name, nsp), printed, log))
    (hstart : ∀ c : Call, (env c).started = true) :
    ((env (Call.execShell name nsp "/bin/bash" false)).success = true →
       shellPod env pat ns
         = (.ok (), log ++ [Call.execShell name nsp "/bin/bash" false])) ∧
    ((env (Call.execShell name nsp "/bin/bash" false)).success = false →
     (env (Call.execShell name nsp "/bin/sh" false)).success = true →
       shellPod env pat ns
         = (.ok (), log ++ [Call.execShell name nsp "/bin/bash" false,
                            Call.execShell name nsp "/bin/sh" false])) ∧
    ((env (Call.execShell name nsp "/bin/bash" false)).success = false →
     (env (Call.execShell name nsp "/bin/sh" false)).success = false →
     (env (Call.execShell name nsp "/bin/sh" true)).success = true →
       shellPod env pat ns
         = (.ok (), log ++ [Call.execShell name nsp "/bin/bash" false,
                            Call.execShell name nsp "/bin/sh" false,
                            Call.execShell name nsp "/bin/sh" true])) ∧
    ((env (Call.execShell name nsp "/bin/bash" false)).success = false →
     (env (Call.execShell name nsp "/bin/sh" false)).success = false →
     (env (Call.execShell name nsp "/bin/sh" true)).success = false →
       shellPod env pat ns
         = (.error (.actionFailed "Failed to open shell (tried bash and sh)"),
            log ++ [Call.execShell name nsp "/bin/bash" false,
                    Call.execShell name nsp "/bin/sh" false,
                    Call.execShell name nsp "/bin/sh" true])) := by
  have hsh : shellPod env pat ns
      = ((shellAttempts env name nsp).1, log ++ (shellAttempts env name nsp).2) := by
    unfold shellPod
    rw [hresolve]
  refine ⟨?_, ?_, ?_, ?_⟩
  · intro h1
    rw [hsh]
    simp [shellAttempts, hstart, h1]
  · intro h1 h2
    rw [hsh]
    simp [shellAttempts, hstart, h1, h2]
  · intro h1 h2 h3
    rw [hsh]
    simp [shellAttempts, hstart, h1, h2, h3]
  · intro h1 h2 h3
    rw [hsh]
    simp [shellAttempts, hstart, h1, h2, h3]

/-- Environment for the C9 witness: resolution finds the single pod `web-1`,
and every shell attempt starts but exits with failure. -/
def envC9 : Call → ProcOutput := fun c =>
  match c with
  | .getPods _ => ⟨true, true, some (.obj [("items", .arr [mkPod "web-1" "prod"])])⟩
  | _ => ⟨true, false, none⟩

/-- C9 witness: all three attempts fail, so the command fails only after the
loud final sh attempt, having logged bash (silent), sh (silent), sh (loud). -/
theorem C9_witness :
    shellPod envC9 "web" none
      = (.error (.actionFailed "Failed to open shell (tried bash and sh)"),
         [Call.getPods none,
          Call.execShell "web-1" "prod" "/bin/bash" false,
          Call.execShell "web-1" "prod" "/bin/sh" false,
          Call.execShell "web-1" "prod" "/bin/sh" true]) :=
  (C9_shell_fallback envC9 "web" none "web-1" "prod" [] [Call.getPods none]
      rfl (fun c => by cases c <;> rfl)).2.2.2 rfl rfl rfl

end Kdbg
